import Mathlib

/-!
Verification of the cornershop price-fetching scripts.

The repository holds two Python scripts:
  - get_prices.py          (namespace GP below)
  - src/get_json.py        (namespace GJ below)
Both fetch a JSON search response, flatten the nested
results / search_result / aisles / products structure into flat rows, and
export the rows.  We embed the Python values and the relevant functions
shallowly: Python values become the inductive type Json, fallible Python
code (code that may raise) returns Except PyErr, and the ambient pieces
(current date, HTTP transport outcome, filesystem effects) become explicit
parameters and traces.
-/

namespace Cornershop

/-- A Python value as it occurs in this program: None, booleans, numbers
(modelled as rationals, which is lossless for the JSON literals involved),
strings, lists and string-keyed dicts. -/
inductive Json where
  | null
  | bool (b : Bool)
  | num (q : ℚ)
  | str (s : String)
  | arr (elems : List Json)
  | obj (fields : List (String × Json))

/-- The Python exceptions the embedded fragments can raise. -/
inductive PyErr where
  | attributeError
  | typeError
deriving DecidableEq

/-- Lookup of a key in a dict, first binding wins (the dicts built by this
program have distinct keys). -/
def jlookup : List (String × Json) → String → Option Json
  | [], _ => none
  | (k, v) :: rest, key => if k = key then some v else jlookup rest key

/-- Python `d.get(key, default)`: on a dict it returns the stored value
(even when that value is None) or the default when the key is absent; on
any non-dict value the attribute access `.get` raises AttributeError. -/
def dget (v : Json) (key : String) (default : Json) : Except PyErr Json :=
  match v with
  | .obj fields => .ok ((jlookup fields key).getD default)
  | _ => .error .attributeError

/-- Python iteration `for x in v`: lists yield their elements, strings
yield their one-character substrings, dicts yield their keys, and every
other value (None, numbers, booleans) raises TypeError. -/
def pyIter (v : Json) : Except PyErr (List Json) :=
  match v with
  | .arr l => .ok l
  | .str s => .ok (s.toList.map fun c => .str (String.mk [c]))
  | .obj fields => .ok (fields.map fun kv => .str kv.1)
  | _ => .error .typeError

/-- Python truthiness of a value, as used by `if not raw_json_data`. -/
def truthy : Json → Bool
  | .null => false
  | .bool b => b
  | .num q => decide (q ≠ 0)
  | .str s => decide (s ≠ "")
  | .arr [] => false
  | .arr (_ :: _) => true
  | .obj [] => false
  | .obj (_ :: _) => true

/-- Python `isinstance(v, list)`. -/
def isArr : Json → Bool
  | .arr _ => true
  | _ => false

/-- Exception propagation: run the continuation unless an exception is
already in flight.  This is the sequencing of two Python statements. -/
def ebind {ε α β : Type} (e : Except ε α) (f : α → Except ε β) : Except ε β :=
  match e with
  | .error err => .error err
  | .ok a => f a

/-- Left-to-right effectful map, the semantics of a Python comprehension
over a list: elements are processed in order and the first exception
aborts the whole comprehension. -/
def exMap {ε α β : Type} (f : α → Except ε β) : List α → Except ε (List β)
  | [] => .ok []
  | a :: rest => ebind (f a) fun b => ebind (exMap f rest) fun bs => .ok (b :: bs)

namespace GJ

/-!  Embedding of src/get_json.py. -/

/-- `get_nested(data, *args)` from get_json.py: walk the keys in order,
returning None as soon as the current value is None, and otherwise
stepping with `data.get(arg)` (which raises AttributeError when the
current value is not a dict). -/
def get_nested (data : Json) : List String → Except PyErr Json
  | [] => .ok data
  | arg :: rest =>
    match data with
    | .null => .ok .null
    | _ => ebind (dget data arg .null) fun next => get_nested next rest

/-- `create_row(data, aisle, product)` from get_json.py.  The current date
is an input of the computation, passed in as `today`.  Field values are
computed in the order the dict literal writes them. -/
def create_row (today : String) (data aisle product : Json) : Except PyErr Json :=
  ebind (dget aisle "aisle_name" .null) fun aisle_name =>
  ebind (dget product "name" .null) fun product_name =>
  ebind (get_nested product ["brand", "name"]) fun brand =>
  ebind (get_nested product ["pricing", "price", "amount"]) fun price =>
  ebind (dget product "package" .null) fun package =>
  ebind (get_nested data ["store", "name"]) fun store_name =>
  ebind (get_nested data ["store", "closest_branch", "city"]) fun store_city =>
  ebind (get_nested data ["search_result", "search_term"]) fun search_term =>
  .ok (.obj [("date", .str today), ("aisle_name", aisle_name),
    ("product_name", product_name), ("brand", brand), ("price", price),
    ("package", package), ("store_name", store_name),
    ("store_city", store_city), ("search_term", search_term)])

/-- The innermost loop of the comprehension in `create_data`: one row per
product of the current aisle, in order. -/
def rows_of_products (today : String) (data aisle : Json) :
    List Json → Except PyErr (List Json)
  | [] => .ok []
  | p :: rest =>
    ebind (create_row today data aisle p) fun row =>
    ebind (rows_of_products today data aisle rest) fun rows =>
    .ok (row :: rows)

/-- The body run for one aisle: `for product in aisle.get("products", [])`. -/
def aisle_rows (today : String) (data aisle : Json) : Except PyErr (List Json) :=
  ebind (dget aisle "products" (.arr [])) fun products =>
  ebind (pyIter products) fun plist =>
  rows_of_products today data aisle plist

/-- The middle loop of the comprehension, over the aisle iterator. -/
def rows_of_aisles (today : String) (data : Json) :
    List Json → Except PyErr (List Json)
  | [] => .ok []
  | a :: rest =>
    ebind (aisle_rows today data a) fun r1 =>
    ebind (rows_of_aisles today data rest) fun r2 =>
    .ok (r1 ++ r2)

/-- The body run for one store result:
`for aisle in get_nested(data, "search_result", "aisles")` — note the
absence of any default: the iterator expression itself may be None. -/
def store_rows (today : String) (data : Json) : Except PyErr (List Json) :=
  ebind (get_nested data ["search_result", "aisles"]) fun aisles =>
  ebind (pyIter aisles) fun alist =>
  rows_of_aisles today data alist

/-- The outer loop of the comprehension, over the store iterator. -/
def rows_of_stores (today : String) : List Json → Except PyErr (List Json)
  | [] => .ok []
  | d :: rest =>
    ebind (store_rows today d) fun r1 =>
    ebind (rows_of_stores today rest) fun r2 =>
    .ok (r1 ++ r2)

/-- `create_data(results)` from get_json.py: the full triple comprehension.
`results` is whatever `raw_json_data.get("results", [])` produced, so it
is iterated as a general Python value. -/
def create_data (today : String) (results : Json) : Except PyErr (List Json) :=
  ebind (pyIter results) fun rs => rows_of_stores today rs

/-- The flatten stage of get_json.py as driven by `get_and_create`:
extract `results` with default empty list, then run `create_data`. -/
def flatten_of_response (today : String) (raw : Json) : Except PyErr (List Json) :=
  ebind (dget raw "results" (.arr [])) fun json_data =>
  create_data today json_data

end GJ

namespace GP

/-!  Embedding of get_prices.py. -/

/-- The inner `create_row(data, aisle, product)` of get_prices.py.  The
field values are computed in the order the dict literal writes them.
Note the defaults taken verbatim from the source: the two `Brand` fields
use `product.get("brand", [])` — the default is a LIST — while every
other chained access defaults to an empty dict or empty string. -/
def create_row (today : String) (data aisle product : Json) : Except PyErr Json :=
  ebind (dget product "pricing" (.obj [])) fun pricing =>
  ebind (dget pricing "price" (.obj [])) fun price =>
  ebind (dget price "amount" (.str "")) fun amount =>
  ebind (dget product "package" (.str "")) fun package =>
  ebind (dget data "search_result" (.obj [])) fun sr =>
  ebind (dget sr "search_term" (.str "")) fun search_term =>
  ebind (dget product "brand" (.arr [])) fun brand1 =>
  ebind (dget brand1 "name" (.str "")) fun brand_name =>
  ebind (dget product "brand" (.arr [])) fun brand2 =>
  ebind (dget brand2 "id" (.str "")) fun brand_id =>
  ebind (dget aisle "aisle_name" (.str "")) fun aisle_name =>
  ebind (dget product "name" (.str "")) fun product_name =>
  ebind (dget product "id" (.str "")) fun product_id =>
  ebind (dget data "store" (.obj [])) fun store1 =>
  ebind (dget store1 "name" (.str "")) fun store_name =>
  ebind (dget data "store" (.obj [])) fun store2 =>
  ebind (dget store2 "id" (.str "")) fun store_id =>
  ebind (dget data "store" (.obj [])) fun store3 =>
  ebind (dget store3 "closest_branch" (.obj [])) fun closest =>
  ebind (dget closest "city" (.str "")) fun store_city =>
  .ok (.obj [("Date", .str today), ("Product Price", amount),
    ("Package", package), ("Search Term", search_term),
    ("Brand", brand_name), ("Brand ID", brand_id),
    ("Aisle Name", aisle_name), ("Product Name", product_name),
    ("Product ID", product_id), ("Store Name", store_name),
    ("Store ID", store_id), ("Store City", store_city)])

/-- Innermost loop of the comprehension in `create_dataframe`. -/
def rows_of_products (today : String) (data aisle : Json) :
    List Json → Except PyErr (List Json)
  | [] => .ok []
  | p :: rest =>
    ebind (create_row today data aisle p) fun row =>
    ebind (rows_of_products today data aisle rest) fun rows =>
    .ok (row :: rows)

/-- Body run for one aisle: `for product in aisle.get("products", [])`. -/
def aisle_rows (today : String) (data aisle : Json) : Except PyErr (List Json) :=
  ebind (dget aisle "products" (.arr [])) fun products =>
  ebind (pyIter products) fun plist =>
  rows_of_products today data aisle plist

/-- Middle loop of the comprehension, over the aisle iterator. -/
def rows_of_aisles (today : String) (data : Json) :
    List Json → Except PyErr (List Json)
  | [] => .ok []
  | a :: rest =>
    ebind (aisle_rows today data a) fun r1 =>
    ebind (rows_of_aisles today data rest) fun r2 =>
    .ok (r1 ++ r2)

/-- Body run for one store result:
`for aisle in data.get("search_result", {}).get("aisles", [])`, with an
empty-dict default for the first step and an empty-list default for the
second. -/
def store_rows (today : String) (data : Json) : Except PyErr (List Json) :=
  ebind (dget data "search_result" (.obj [])) fun sr =>
  ebind (dget sr "aisles" (.arr [])) fun aisles =>
  ebind (pyIter aisles) fun alist =>
  rows_of_aisles today data alist

/-- Outer loop of the comprehension, over the store iterator. -/
def rows_of_stores (today : String) : List Json → Except PyErr (List Json)
  | [] => .ok []
  | d :: rest =>
    ebind (store_rows today d) fun r1 =>
    ebind (rows_of_stores today rest) fun r2 =>
    .ok (r1 ++ r2)

/-- `create_dataframe(results)` from get_prices.py, up to the final
`pd.DataFrame(rows)` wrapper: the rows list it builds. -/
def create_dataframe (today : String) (results : Json) : Except PyErr (List Json) :=
  ebind (pyIter results) fun rs => rows_of_stores today rs

end GP

/-- The outcome of the one HTTP GET issued by either fetcher, seen from the
calling code: either `requests.get` raised a RequestException (transport
failure), or a response arrived with a status code and a body that either
parses as JSON (`some`) or does not (`none`). -/
inductive FetchOutcome where
  | requestException
  | response (status : Nat) (body : Option Json)

/-- `response.raise_for_status()` raises HTTPError exactly for client and
server error codes. -/
def errorStatus (s : Nat) : Bool :=
  decide (400 ≤ s ∧ s < 600)

/-- A filesystem effect performed by the export code, in order. -/
inductive FsAction where
  | makedirs (dir : String)
  | write (path : String)

namespace GJ

/-- The APIError exception of get_json.py, carrying its message. -/
structure APIError where
  message : String

/-- Message raised on transport error or non-success status. -/
def transport_error_message : String :=
  "An error occurred while fetching product data."

/-- Message raised when the body does not parse as JSON. -/
def invalid_json_message : String :=
  "Received an invalid JSON response."

/-- `get_product_data` from get_json.py: transport errors and HTTPError
from `raise_for_status` are re-raised as one APIError, and a body that
fails to parse is re-raised as a second APIError with a different
message. -/
def get_product_data (o : FetchOutcome) : Except APIError Json :=
  match o with
  | .requestException => .error ⟨transport_error_message⟩
  | .response s b =>
    if errorStatus s then .error ⟨transport_error_message⟩
    else
      match b with
      | some j => .ok j
      | none => .error ⟨invalid_json_message⟩

/-- An exception escaping `get_and_create`: either the APIError raised by
the fetcher or a plain Python exception raised by the flattener. -/
inductive GJError where
  | api (e : APIError)
  | py (e : PyErr)

/-- `get_and_create(term, code, country, base_dir)` from get_json.py:
fetch, take `results` with default empty list, flatten, then create the
data directory and save one JSON file.  The filesystem effects are
returned as a trace; on any exception the trace is empty because the
function raises before reaching `os.makedirs`. -/
def get_and_create (today term code country base_dir timestamp : String)
    (o : FetchOutcome) : List FsAction × Except GJError (List Json) :=
  match get_product_data o with
  | .error e => ([], .error (.api e))
  | .ok raw =>
    match dget raw "results" (.arr []) with
    | .error e => ([], .error (.py e))
    | .ok json_data =>
      match create_data today json_data with
      | .error e => ([], .error (.py e))
      | .ok data =>
        ([.makedirs (base_dir ++ "/data"),
          .write (base_dir ++ "/data/" ++ term ++ "_" ++ code ++ "_"
            ++ timestamp ++ ".json")],
         .ok data)

end GJ

/-- The file formats accepted by `export_data` in get_prices.py. -/
def supported_formats : List String := ["csv", "parquet", "json"]

/-- The ValueError raised by `export_data` for an unsupported format — the
ConfigError of the design. -/
inductive ExportError where
  | unsupportedFormat (format : String)

/-- `export_data(df, dir_path, base_name, format)` from get_prices.py.
The format check comes first and raises before any filesystem access;
only then does the function create the directory and write
`dir_path/base_name_timestamp.format`.  The filesystem effects performed
are returned as a trace next to the outcome. -/
def export_data (dir_path base_name format timestamp : String) :
    List FsAction × Except ExportError Unit :=
  if format ∈ supported_formats then
    ([.makedirs dir_path,
      .write (dir_path ++ "/" ++ base_name ++ "_" ++ timestamp ++ "." ++ format)],
     .ok ())
  else
    ([], .error (.unsupportedFormat format))

namespace GP

/-- `get_product_data` from get_prices.py: both HTTPError (non-success
status) and every other RequestException are caught, logged and turned
into the return value None.  A body that fails to parse raises
`requests.exceptions.JSONDecodeError`, which is a RequestException (for
the requests releases contemporary with this code), so it is caught by
the same handler and also yields None. -/
def get_product_data (o : FetchOutcome) : Option Json :=
  match o with
  | .requestException => none
  | .response s b =>
    if errorStatus s then none
    else
      match b with
      | some j => some j
      | none => none

/-- An exception escaping `fetch_and_export_product_data`: a Python
exception from the flattener or the ValueError from the exporter. -/
inductive GPError where
  | py (e : PyErr)
  | config (e : ExportError)

/-- The flatten stage of get_prices.py as driven by
`fetch_and_export_product_data`, given the fetched value: the falsy
check, the `results` extraction with default empty list, the isinstance
guard, and `create_dataframe`.  The early returns (which log a warning
and produce nothing) are modelled as an empty row list. -/
def flatten_of_response (today : String) (raw : Json) : Except PyErr (List Json) :=
  if truthy raw = false then .ok []
  else
    ebind (dget raw "results" (.arr [])) fun product_results =>
    if isArr product_results then create_dataframe today product_results
    else .ok []

/-- `fetch_and_export_product_data` from get_prices.py end to end: fetch,
return early on a falsy fetch result, extract `results` with default
empty list, return early when it is not a list, flatten, export.  The
early returns log a warning and skip the export; when flattening does
run, the export runs even for an empty row list.  Filesystem effects are
returned as a trace; the trace is empty whenever the function returns
early or raises before the export call. -/
def fetch_and_export_product_data
    (today dir_path base_name format timestamp : String) (o : FetchOutcome) :
    List FsAction × Except GPError Unit :=
  match get_product_data o with
  | none => ([], .ok ())
  | some raw =>
    if truthy raw = false then ([], .ok ())
    else
      match dget raw "results" (.arr []) with
      | .error e => ([], .error (.py e))
      | .ok product_results =>
        if isArr product_results = false then ([], .ok ())
        else
          match create_dataframe today product_results with
          | .error e => ([], .error (.py e))
          | .ok _rows =>
            match export_data dir_path base_name format timestamp with
            | (acts, .ok ()) => (acts, .ok ())
            | (acts, .error e) => (acts, .error (.config e))

end GP

namespace SpecModel

/-!  Spec-side comparison functions, written from the design document
rather than from the Python: the data-model accessors (a StoreResult
carries `search_result.aisles`, an ordered sequence that may be absent;
an Aisle carries `products`, an ordered sequence defaulting to empty),
the declared record-count invariant, the nested traversal order, and the
safe-navigation helper of the design notes. -/

/-- The aisles of one store result per the data model: the value under
`search_result` then `aisles` when that chain exists and ends in a
sequence, and the empty sequence otherwise. -/
def aislesOf (store : Json) : List Json :=
  match store with
  | .obj f =>
    match jlookup f "search_result" with
    | some (.obj srf) =>
      match jlookup srf "aisles" with
      | some (.arr l) => l
      | _ => []
    | _ => []
  | _ => []

/-- The products of one aisle per the data model: the sequence under
`products` when present, and the empty sequence otherwise. -/
def productsOf (aisle : Json) : List Json :=
  match aisle with
  | .obj f =>
    match jlookup f "products" with
    | some (.arr l) => l
    | _ => []
  | _ => []

/-- Number of products summed over a list of aisles. -/
def aisleCount : List Json → Nat
  | [] => 0
  | a :: rest => (productsOf a).length + aisleCount rest

/-- The declared invariant count: the sum, over all stores and over all
aisles of each store, of the number of products in that aisle. -/
def recordCount : List Json → Nat
  | [] => 0
  | d :: rest => aisleCount (aislesOf d) + recordCount rest

/-- The (store, aisle, product) triples contributed by one store, for the
given aisle list, in traversal order. -/
def storeTriplesAux (d : Json) : List Json → List (Json × Json × Json)
  | [] => []
  | a :: rest => (productsOf a).map (fun p => (d, a, p)) ++ storeTriplesAux d rest

/-- The triples contributed by one store result. -/
def storeTriples (d : Json) : List (Json × Json × Json) :=
  storeTriplesAux d (aislesOf d)

/-- All (store, aisle, product) triples of a results list, in nested
traversal order: earlier stores first, within one store its aisle order,
within one aisle its product order. -/
def triples : List Json → List (Json × Json × Json)
  | [] => []
  | d :: rest => storeTriples d ++ triples rest

/-- The safe-navigation helper described by the design: follow the key
chain from the root, short-circuiting to the null placeholder the
instant any step is missing or null. -/
def navigate (data : Json) (keys : List String) : Json :=
  match keys with
  | [] => data
  | key :: rest =>
    match data with
    | .null => .null
    | .obj fields => navigate ((jlookup fields key).getD .null) rest
    | _ => .null

/-- Whether every value reached along the key chain with keys remaining
is a dict or null — the domain on which a duck-typed `.get` chain can run
at all. -/
def dictChain (data : Json) (keys : List String) : Bool :=
  match keys with
  | [] => true
  | key :: rest =>
    match data with
    | .null => true
    | .obj fields => dictChain ((jlookup fields key).getD .null) rest
    | _ => false

end SpecModel

/-- The row constructor of get_json.py on a (store, aisle, product)
triple. -/
def GJ.rowFn (today : String) (t : Json × Json × Json) : Except PyErr Json :=
  GJ.create_row today t.1 t.2.1 t.2.2

/-- The row constructor of get_prices.py on a (store, aisle, product)
triple. -/
def GP.rowFn (today : String) (t : Json × Json × Json) : Except PyErr Json :=
  GP.create_row today t.1 t.2.1 t.2.2

/-!  Concrete values used by the claim witnesses and counterexamples. -/

/-- The row get_json.py builds for a product dict with no fields at all:
every extracted field is the null placeholder. -/
def gjNullRow (today : String) : Json :=
  .obj [("date", .str today), ("aisle_name", .null), ("product_name", .null),
    ("brand", .null), ("price", .null), ("package", .null),
    ("store_name", .null), ("store_city", .null), ("search_term", .null)]

/-- A store result with one aisle holding two empty product dicts. -/
def gjStoreTwoProducts : Json :=
  .obj [("search_result",
    .obj [("aisles", .arr [.obj [("products", .arr [.obj [], .obj []])]])])]

/-- The row get_prices.py builds for a product dict whose only field is an
empty brand dict: every extracted field is the empty-string placeholder. -/
def gpPlaceholderRow (today : String) : Json :=
  .obj [("Date", .str today), ("Product Price", .str ""), ("Package", .str ""),
    ("Search Term", .str ""), ("Brand", .str ""), ("Brand ID", .str ""),
    ("Aisle Name", .str ""), ("Product Name", .str ""), ("Product ID", .str ""),
    ("Store Name", .str ""), ("Store ID", .str ""), ("Store City", .str "")]

/-- A store result whose search_result has no aisles key. -/
def gpStoreNoAisles : Json :=
  .obj [("search_result", .obj [])]

/-- A store result with one aisle holding one product that carries an
empty brand dict. -/
def gpStoreOneProduct : Json :=
  .obj [("search_result",
    .obj [("aisles",
      .arr [.obj [("products", .arr [.obj [("brand", .obj [])]])]])])]

/-- The end-to-end scenario response fixed by the design document: one
store, one aisle, one fully populated product. -/
def milkResponse : Json :=
  .obj [("results", .arr [
    .obj [
      ("store", .obj [("name", .str "S1"), ("id", .num 1),
        ("closest_branch", .obj [("city", .str "X")])]),
      ("search_result", .obj [
        ("search_term", .str "milk"),
        ("aisles", .arr [
          .obj [
            ("aisle_name", .str "Dairy"),
            ("products", .arr [
              .obj [("name", .str "Milk 1L"), ("id", .num 9),
                ("brand", .obj [("name", .str "B"), ("id", .num 2)]),
                ("pricing", .obj [("price", .obj [("amount", .num (5.5 : ℚ))])]),
                ("package", .str "1L")]])]])])]])]

/-- The single record the design document expects for `milkResponse`. -/
def milkRow (today : String) : Json :=
  .obj [("date", .str today), ("aisle_name", .str "Dairy"),
    ("product_name", .str "Milk 1L"), ("brand", .str "B"),
    ("price", .num (5.5 : ℚ)), ("package", .str "1L"),
    ("store_name", .str "S1"), ("store_city", .str "X"),
    ("search_term", .str "milk")]

/-!  Generic lemmas about the comprehension semantics. -/

@[simp] theorem ebind_ok {ε α β : Type} (a : α) (f : α → Except ε β) :
    ebind (Except.ok a) f = f a := rfl

@[simp] theorem ebind_error {ε α β : Type} (e : ε) (f : α → Except ε β) :
    ebind (Except.error e : Except ε α) f = Except.error e := rfl

theorem exMap_ok_length {ε α β : Type} (f : α → Except ε β) :
    ∀ (l : List α) (r : List β), exMap f l = .ok r → r.length = l.length := by
  intro l
  induction l with
  | nil =>
    intro r h
    simp only [exMap] at h
    cases h
    rfl
  | cons a rest ih =>
    intro r h
    simp only [exMap] at h
    cases hfa : f a with
    | error e => rw [hfa] at h; simp at h
    | ok b =>
      rw [hfa] at h
      cases hrest : exMap f rest with
      | error e => rw [hrest] at h; simp at h
      | ok bs =>
        rw [hrest] at h
        simp only [ebind_ok] at h
        cases h
        simp [ih bs hrest]

theorem exMap_ok_append {ε α β : Type} (f : α → Except ε β) :
    ∀ (l₁ l₂ : List α) (r₁ r₂ : List β),
      exMap f l₁ = .ok r₁ → exMap f l₂ = .ok r₂ →
      exMap f (l₁ ++ l₂) = .ok (r₁ ++ r₂) := by
  intro l₁
  induction l₁ with
  | nil =>
    intro l₂ r₁ r₂ h1 h2
    simp only [exMap] at h1
    cases h1
    simpa using h2
  | cons a rest ih =>
    intro l₂ r₁ r₂ h1 h2
    simp only [exMap] at h1 ⊢
    cases hfa : f a with
    | error e => rw [hfa] at h1; simp at h1
    | ok b =>
      rw [hfa] at h1
      cases hrest : exMap f rest with
      | error e => rw [hrest] at h1; simp at h1
      | ok bs =>
        rw [hrest] at h1
        simp only [ebind_ok] at h1
        cases h1
        have h3 : exMap f (rest.append l₂) = Except.ok (bs ++ r₂) :=
          ih l₂ bs r₂ hrest h2
        rw [ebind_ok, h3, ebind_ok, List.cons_append]

namespace SpecModel

theorem storeTriplesAux_length (d : Json) :
    ∀ l : List Json, (storeTriplesAux d l).length = aisleCount l := by
  intro l
  induction l with
  | nil => rfl
  | cons a rest ih =>
    simp [storeTriplesAux, aisleCount, ih]

theorem triples_length :
    ∀ results : List Json, (triples results).length = recordCount results := by
  intro results
  induction results with
  | nil => rfl
  | cons d rest ih =>
    simp [triples, recordCount, storeTriples, storeTriplesAux_length, ih]

end SpecModel

/-!  Refinement lemmas for the get_json.py flattener: a successful run of
the comprehension produces exactly the rows obtained by applying the row
constructor to the spec-side traversal triples, in order. -/

theorem GJ.create_row_str_product (today : String) (data : Json)
    (af : List (String × Json)) (s : String) :
    GJ.create_row today data (.obj af) (.str s) = .error .attributeError := by
  simp [GJ.create_row, dget]

theorem GJ.rows_of_products_ok (today : String) (data : Json) (aisle : Json) :
    ∀ (l : List Json) (rows : List Json),
      GJ.rows_of_products today data aisle l = .ok rows →
      exMap (GJ.rowFn today) (l.map fun p => (data, aisle, p)) = .ok rows := by
  intro l
  induction l with
  | nil =>
    intro rows h
    simp only [GJ.rows_of_products] at h
    cases h
    rfl
  | cons p rest ih =>
    intro rows h
    simp only [GJ.rows_of_products] at h
    cases hrow : GJ.create_row today data aisle p with
    | error e => rw [hrow] at h; simp at h
    | ok row =>
      rw [hrow] at h
      cases hrest : GJ.rows_of_products today data aisle rest with
      | error e => rw [hrest] at h; simp at h
      | ok rows' =>
        rw [hrest] at h
        simp only [ebind_ok] at h
        cases h
        simp only [List.map_cons, exMap, GJ.rowFn, hrow, ebind_ok, ih rows' hrest]

theorem GJ.aisle_rows_ok (today : String) (data : Json) :
    ∀ (aisle : Json) (rows : List Json),
      GJ.aisle_rows today data aisle = .ok rows →
      exMap (GJ.rowFn today)
          ((SpecModel.productsOf aisle).map fun p => (data, aisle, p)) = .ok rows := by
  intro aisle rows h
  cases aisle with
  | obj f =>
    simp only [GJ.aisle_rows, dget, ebind_ok] at h
    cases hp : jlookup f "products" with
    | none =>
      rw [hp] at h
      simp only [Option.getD_none, pyIter, ebind_ok, GJ.rows_of_products] at h
      cases h
      simp [SpecModel.productsOf, hp, exMap]
    | some v =>
      rw [hp] at h
      simp only [Option.getD_some] at h
      cases v with
      | arr l =>
        simp only [pyIter, ebind_ok] at h
        simp only [SpecModel.productsOf, hp]
        exact GJ.rows_of_products_ok today data (.obj f) l rows h
      | str s =>
        simp only [pyIter, ebind_ok] at h
        cases hs : s.toList with
        | nil =>
          rw [hs] at h
          simp only [List.map_nil, GJ.rows_of_products] at h
          cases h
          simp [SpecModel.productsOf, hp, exMap]
        | cons c cs =>
          rw [hs] at h
          simp only [List.map_cons, GJ.rows_of_products,
            GJ.create_row_str_product, ebind_error] at h
          simp at h
      | obj kvs =>
        simp only [pyIter, ebind_ok] at h
        cases kvs with
        | nil =>
          simp only [List.map_nil, GJ.rows_of_products] at h
          cases h
          simp [SpecModel.productsOf, hp, exMap]
        | cons kv rest =>
          simp only [List.map_cons, GJ.rows_of_products,
            GJ.create_row_str_product, ebind_error] at h
          simp at h
      | null => simp [pyIter] at h
      | num q => simp [pyIter] at h
      | bool b => simp [pyIter] at h
  | null => simp [GJ.aisle_rows, dget] at h
  | bool b => simp [GJ.aisle_rows, dget] at h
  | num q => simp [GJ.aisle_rows, dget] at h
  | str s => simp [GJ.aisle_rows, dget] at h
  | arr l => simp [GJ.aisle_rows, dget] at h

theorem GJ.rows_of_aisles_ok (today : String) (data : Json) :
    ∀ (l : List Json) (rows : List Json),
      GJ.rows_of_aisles today data l = .ok rows →
      exMap (GJ.rowFn today) (SpecModel.storeTriplesAux data l) = .ok rows := by
  intro l
  induction l with
  | nil =>
    intro rows h
    simp only [GJ.rows_of_aisles] at h
    cases h
    rfl
  | cons a rest ih =>
    intro rows h
    simp only [GJ.rows_of_aisles] at h
    cases h1 : GJ.aisle_rows today data a with
    | error e => rw [h1] at h; simp at h
    | ok r1 =>
      rw [h1] at h
      cases h2 : GJ.rows_of_aisles today data rest with
      | error e => rw [h2] at h; simp at h
      | ok r2 =>
        rw [h2] at h
        simp only [ebind_ok] at h
        cases h
        exact exMap_ok_append (GJ.rowFn today) _ _ r1 r2
          (GJ.aisle_rows_ok today data a r1 h1) (ih r2 h2)

theorem GJ.store_rows_ok (today : String) :
    ∀ (d : Json) (rows : List Json),
      GJ.store_rows today d = .ok rows →
      exMap (GJ.rowFn today) (SpecModel.storeTriples d) = .ok rows := by
  intro d rows h
  cases d with
  | obj f =>
    simp only [GJ.store_rows, GJ.get_nested, dget, ebind_ok] at h
    cases hsr : jlookup f "search_result" with
    | none =>
      rw [hsr] at h
      simp [GJ.get_nested, pyIter] at h
    | some sr =>
      rw [hsr] at h
      simp only [Option.getD_some] at h
      cases sr with
      | obj srf =>
        simp only [GJ.get_nested, dget, ebind_ok] at h
        cases ha : jlookup srf "aisles" with
        | none =>
          rw [ha] at h
          simp [pyIter] at h
        | some a =>
          rw [ha] at h
          simp only [Option.getD_some] at h
          cases a with
          | arr l =>
            simp only [pyIter, ebind_ok] at h
            simp only [SpecModel.storeTriples, SpecModel.aislesOf, hsr, ha]
            exact GJ.rows_of_aisles_ok today (.obj f) l rows h
          | str s =>
            simp only [pyIter, ebind_ok] at h
            cases hs : s.toList with
            | nil =>
              rw [hs] at h
              simp only [List.map_nil, GJ.rows_of_aisles] at h
              cases h
              simp [SpecModel.storeTriples, SpecModel.aislesOf, hsr, ha,
                SpecModel.storeTriplesAux, exMap]
            | cons c cs =>
              rw [hs] at h
              simp [GJ.rows_of_aisles, GJ.aisle_rows, dget] at h
          | obj kvs =>
            simp only [pyIter, ebind_ok] at h
            cases kvs with
            | nil =>
              simp only [List.map_nil, GJ.rows_of_aisles] at h
              cases h
              simp [SpecModel.storeTriples, SpecModel.aislesOf, hsr, ha,
                SpecModel.storeTriplesAux, exMap]
            | cons kv rest =>
              simp [GJ.rows_of_aisles, GJ.aisle_rows, dget] at h
          | null => simp [pyIter] at h
          | num q => simp [pyIter] at h
          | bool b => simp [pyIter] at h
      | null => simp [GJ.get_nested, pyIter] at h
      | str s => simp [GJ.get_nested, dget] at h
      | arr l => simp [GJ.get_nested, dget] at h
      | num q => simp [GJ.get_nested, dget] at h
      | bool b => simp [GJ.get_nested, dget] at h
  | null => simp [GJ.store_rows, GJ.get_nested, pyIter] at h
  | str s => simp [GJ.store_rows, GJ.get_nested, dget] at h
  | arr l => simp [GJ.store_rows, GJ.get_nested, dget] at h
  | num q => simp [GJ.store_rows, GJ.get_nested, dget] at h
  | bool b => simp [GJ.store_rows, GJ.get_nested, dget] at h

theorem GJ.rows_of_stores_ok (today : String) :
    ∀ (ds : List Json) (rows : List Json),
      GJ.rows_of_stores today ds = .ok rows →
      exMap (GJ.rowFn today) (SpecModel.triples ds) = .ok rows := by
  intro ds
  induction ds with
  | nil =>
    intro rows h
    simp only [GJ.rows_of_stores] at h
    cases h
    rfl
  | cons d rest ih =>
    intro rows h
    simp only [GJ.rows_of_stores] at h
    cases h1 : GJ.store_rows today d with
    | error e => rw [h1] at h; simp at h
    | ok r1 =>
      rw [h1] at h
      cases h2 : GJ.rows_of_stores today rest with
      | error e => rw [h2] at h; simp at h
      | ok r2 =>
        rw [h2] at h
        simp only [ebind_ok] at h
        cases h
        exact exMap_ok_append (GJ.rowFn today) _ _ r1 r2
          (GJ.store_rows_ok today d r1 h1) (ih r2 h2)

/-- Main refinement result for get_json.py: whenever `create_data`
returns rows on a list of store results, those rows are exactly the
result of running the row constructor over the spec-side traversal
triples, in nested traversal order. -/
theorem GJ.create_data_ok (today : String) (results : List Json) (rows : List Json)
    (h : GJ.create_data today (.arr results) = .ok rows) :
    exMap (GJ.rowFn today) (SpecModel.triples results) = .ok rows := by
  simp only [GJ.create_data, pyIter, ebind_ok] at h
  exact GJ.rows_of_stores_ok today results rows h

/-!  The same refinement lemmas for the get_prices.py flattener. -/

theorem GP.gp_create_row_str_product (today : String) (data aisle : Json) (s : String) :
    GP.create_row today data aisle (.str s) = .error .attributeError := by
  simp [GP.create_row, dget]

theorem GP.gp_rows_of_products_ok (today : String) (data : Json) (aisle : Json) :
    ∀ (l : List Json) (rows : List Json),
      GP.rows_of_products today data aisle l = .ok rows →
      exMap (GP.rowFn today) (l.map fun p => (data, aisle, p)) = .ok rows := by
  intro l
  induction l with
  | nil =>
    intro rows h
    simp only [GP.rows_of_products] at h
    cases h
    rfl
  | cons p rest ih =>
    intro rows h
    simp only [GP.rows_of_products] at h
    cases hrow : GP.create_row today data aisle p with
    | error e => rw [hrow] at h; simp at h
    | ok row =>
      rw [hrow] at h
      cases hrest : GP.rows_of_products today data aisle rest with
      | error e => rw [hrest] at h; simp at h
      | ok rows' =>
        rw [hrest] at h
        simp only [ebind_ok] at h
        cases h
        simp only [List.map_cons, exMap, GP.rowFn, hrow, ebind_ok, ih rows' hrest]

theorem GP.gp_aisle_rows_ok (today : String) (data : Json) :
    ∀ (aisle : Json) (rows : List Json),
      GP.aisle_rows today data aisle = .ok rows →
      exMap (GP.rowFn today)
          ((SpecModel.productsOf aisle).map fun p => (data, aisle, p)) = .ok rows := by
  intro aisle rows h
  cases aisle with
  | obj f =>
    simp only [GP.aisle_rows, dget, ebind_ok] at h
    cases hp : jlookup f "products" with
    | none =>
      rw [hp] at h
      simp only [Option.getD_none, pyIter, ebind_ok, GP.rows_of_products] at h
      cases h
      simp [SpecModel.productsOf, hp, exMap]
    | some v =>
      rw [hp] at h
      simp only [Option.getD_some] at h
      cases v with
      | arr l =>
        simp only [pyIter, ebind_ok] at h
        simp only [SpecModel.productsOf, hp]
        exact GP.gp_rows_of_products_ok today data (.obj f) l rows h
      | str s =>
        simp only [pyIter, ebind_ok] at h
        cases hs : s.toList with
        | nil =>
          rw [hs] at h
          simp only [List.map_nil, GP.rows_of_products] at h
          cases h
          simp [SpecModel.productsOf, hp, exMap]
        | cons c cs =>
          rw [hs] at h
          simp only [List.map_cons, GP.rows_of_products,
            GP.gp_create_row_str_product, ebind_error] at h
          simp at h
      | obj kvs =>
        simp only [pyIter, ebind_ok] at h
        cases kvs with
        | nil =>
          simp only [List.map_nil, GP.rows_of_products] at h
          cases h
          simp [SpecModel.productsOf, hp, exMap]
        | cons kv rest =>
          simp only [List.map_cons, GP.rows_of_products,
            GP.gp_create_row_str_product, ebind_error] at h
          simp at h
      | null => simp [pyIter] at h
      | num q => simp [pyIter] at h
      | bool b => simp [pyIter] at h
  | null => simp [GP.aisle_rows, dget] at h
  | bool b => simp [GP.aisle_rows, dget] at h
  | num q => simp [GP.aisle_rows, dget] at h
  | str s => simp [GP.aisle_rows, dget] at h
  | arr l => simp [GP.aisle_rows, dget] at h

theorem GP.gp_rows_of_aisles_ok (today : String) (data : Json) :
    ∀ (l : List Json) (rows : List Json),
      GP.rows_of_aisles today data l = .ok rows →
      exMap (GP.rowFn today) (SpecModel.storeTriplesAux data l) = .ok rows := by
  intro l
  induction l with
  | nil =>
    intro rows h
    simp only [GP.rows_of_aisles] at h
    cases h
    rfl
  | cons a rest ih =>
    intro rows h
    simp only [GP.rows_of_aisles] at h
    cases h1 : GP.aisle_rows today data a with
    | error e => rw [h1] at h; simp at h
    | ok r1 =>
      rw [h1] at h
      cases h2 : GP.rows_of_aisles today data rest with
      | error e => rw [h2] at h; simp at h
      | ok r2 =>
        rw [h2] at h
        simp only [ebind_ok] at h
        cases h
        exact exMap_ok_append (GP.rowFn today) _ _ r1 r2
          (GP.gp_aisle_rows_ok today data a r1 h1) (ih r2 h2)

theorem GP.gp_store_rows_ok (today : String) :
    ∀ (d : Json) (rows : List Json),
      GP.store_rows today d = .ok rows →
      exMap (GP.rowFn today) (SpecModel.storeTriples d) = .ok rows := by
  intro d rows h
  cases d with
  | obj f =>
    simp only [GP.store_rows, dget, ebind_ok] at h
    cases hsr : jlookup f "search_result" with
    | none =>
      rw [hsr] at h
      simp only [Option.getD_none, dget, jlookup, Option.getD_none,
        pyIter, ebind_ok, GP.rows_of_aisles] at h
      cases h
      simp [SpecModel.storeTriples, SpecModel.aislesOf, hsr,
        SpecModel.storeTriplesAux, exMap]
    | some sr =>
      rw [hsr] at h
      simp only [Option.getD_some] at h
      cases sr with
      | obj srf =>
        simp only [dget, ebind_ok] at h
        cases ha : jlookup srf "aisles" with
        | none =>
          rw [ha] at h
          simp only [Option.getD_none, pyIter, ebind_ok, GP.rows_of_aisles] at h
          cases h
          simp [SpecModel.storeTriples, SpecModel.aislesOf, hsr, ha,
            SpecModel.storeTriplesAux, exMap]
        | some a =>
          rw [ha] at h
          simp only [Option.getD_some] at h
          cases a with
          | arr l =>
            simp only [pyIter, ebind_ok] at h
            simp only [SpecModel.storeTriples, SpecModel.aislesOf, hsr, ha]
            exact GP.gp_rows_of_aisles_ok today (.obj f) l rows h
          | str s =>
            simp only [pyIter, ebind_ok] at h
            cases hs : s.toList with
            | nil =>
              rw [hs] at h
              simp only [List.map_nil, GP.rows_of_aisles] at h
              cases h
              simp [SpecModel.storeTriples, SpecModel.aislesOf, hsr, ha,
                SpecModel.storeTriplesAux, exMap]
            | cons c cs =>
              rw [hs] at h
              simp [GP.rows_of_aisles, GP.aisle_rows, dget] at h
          | obj kvs =>
            simp only [pyIter, ebind_ok] at h
            cases kvs with
            | nil =>
              simp only [List.map_nil, GP.rows_of_aisles] at h
              cases h
              simp [SpecModel.storeTriples, SpecModel.aislesOf, hsr, ha,
                SpecModel.storeTriplesAux, exMap]
            | cons kv rest =>
              simp [GP.rows_of_aisles, GP.aisle_rows, dget] at h
          | null => simp [pyIter] at h
          | num q => simp [pyIter] at h
          | bool b => simp [pyIter] at h
      | null => simp [dget] at h
      | str s => simp [dget] at h
      | arr l => simp [dget] at h
      | num q => simp [dget] at h
      | bool b => simp [dget] at h
  | null => simp [GP.store_rows, dget] at h
  | str s => simp [GP.store_rows, dget] at h
  | arr l => simp [GP.store_rows, dget] at h
  | num q => simp [GP.store_rows, dget] at h
  | bool b => simp [GP.store_rows, dget] at h

theorem GP.gp_rows_of_stores_ok (today : String) :
    ∀ (ds : List Json) (rows : List Json),
      GP.rows_of_stores today ds = .ok rows →
      exMap (GP.rowFn today) (SpecModel.triples ds) = .ok rows := by
  intro ds
  induction ds with
  | nil =>
    intro rows h
    simp only [GP.rows_of_stores] at h
    cases h
    rfl
  | cons d rest ih =>
    intro rows h
    simp only [GP.rows_of_stores] at h
    cases h1 : GP.store_rows today d with
    | error e => rw [h1] at h; simp at h
    | ok r1 =>
      rw [h1] at h
      cases h2 : GP.rows_of_stores today rest with
      | error e => rw [h2] at h; simp at h
      | ok r2 =>
        rw [h2] at h
        simp only [ebind_ok] at h
        cases h
        exact exMap_ok_append (GP.rowFn today) _ _ r1 r2
          (GP.gp_store_rows_ok today d r1 h1) (ih r2 h2)

/-- Main refinement result for get_prices.py: whenever `create_dataframe`
builds its rows from a list of store results, those rows are exactly the
result of running the row constructor over the spec-side traversal
triples, in nested traversal order. -/
theorem GP.create_dataframe_ok (today : String) (results : List Json) (rows : List Json)
    (h : GP.create_dataframe today (.arr results) = .ok rows) :
    exMap (GP.rowFn today) (SpecModel.triples results) = .ok rows := by
  simp only [GP.create_dataframe, pyIter, ebind_ok] at h
  exact GP.gp_rows_of_stores_ok today results rows h

/-!  The claims. -/

/-- Claim C1: for every input sequence of store results, the number of
flat records produced by either flattener (create_dataframe of
get_prices.py, create_data of get_json.py) equals the sum over all
stores, over all aisles of that store, of the number of products in that
aisle — one record per product occurrence, none dropped, duplicated or
deduplicated. -/
theorem C1_record_count (today : String) (results : List Json) (rows : List Json) :
    (GP.create_dataframe today (.arr results) = .ok rows →
      rows.length = SpecModel.recordCount results) ∧
    (GJ.create_data today (.arr results) = .ok rows →
      rows.length = SpecModel.recordCount results) := by
  constructor
  · intro h
    have h2 := GP.create_dataframe_ok today results rows h
    have h3 := exMap_ok_length (GP.rowFn today) _ rows h2
    rw [h3, SpecModel.triples_length]
  · intro h
    have h2 := GJ.create_data_ok today results rows h
    have h3 := exMap_ok_length (GJ.rowFn today) _ rows h2
    rw [h3, SpecModel.triples_length]

/-- Witness for C1: a get_prices run producing one record out of one
product, and a get_json run producing two records out of two products. -/
theorem C1_record_count_witness :
    ([gpPlaceholderRow "2023-01-01"].length
      = SpecModel.recordCount [gpStoreOneProduct]) ∧
    ([gjNullRow "01-01-2023", gjNullRow "01-01-2023"].length
      = SpecModel.recordCount [gjStoreTwoProducts]) :=
  ⟨(C1_record_count "2023-01-01" [gpStoreOneProduct]
      [gpPlaceholderRow "2023-01-01"]).1 (by rfl),
   (C1_record_count "01-01-2023" [gjStoreTwoProducts]
      [gjNullRow "01-01-2023", gjNullRow "01-01-2023"]).2 (by rfl)⟩

/-- Claim C10: both flatteners emit records in exactly the nested
traversal order — earlier stores first, within a store its aisle order,
within an aisle its product order — that is, a successful flattening
equals running the row constructor over the spec-side traversal triples
(the flat-map over stores, then aisles, then products). -/
theorem C10_traversal_order (today : String) (results : List Json) (rows : List Json) :
    (GP.create_dataframe today (.arr results) = .ok rows →
      exMap (GP.rowFn today) (SpecModel.triples results) = .ok rows) ∧
    (GJ.create_data today (.arr results) = .ok rows →
      exMap (GJ.rowFn today) (SpecModel.triples results) = .ok rows) :=
  ⟨GP.create_dataframe_ok today results rows, GJ.create_data_ok today results rows⟩

/-- Witness for C10 at concrete inputs with one and two products. -/
theorem C10_traversal_order_witness :
    exMap (GP.rowFn "2023-01-01") (SpecModel.triples [gpStoreOneProduct])
      = .ok [gpPlaceholderRow "2023-01-01"] ∧
    exMap (GJ.rowFn "01-01-2023") (SpecModel.triples [gjStoreTwoProducts])
      = .ok [gjNullRow "01-01-2023", gjNullRow "01-01-2023"] :=
  ⟨(C10_traversal_order "2023-01-01" [gpStoreOneProduct]
      [gpPlaceholderRow "2023-01-01"]).1 (by rfl),
   (C10_traversal_order "01-01-2023" [gjStoreTwoProducts]
      [gjNullRow "01-01-2023", gjNullRow "01-01-2023"]).2 (by rfl)⟩

/-- Claim C2 (code bug): the claim says a product missing brand, pricing
or package yields placeholder fields without raising.  get_json.py does
behave so (second conjunct: the empty product dict yields the all-null
row), but the create_row of get_prices.py evaluates
`product.get("brand", []).get("name", "")`, whose default is a list, so a
product without a brand key raises AttributeError (first conjunct). -/
theorem C2_missing_brand_crashes :
    GP.create_row "2023-01-01" (.obj []) (.obj []) (.obj [])
      = .error .attributeError ∧
    GJ.create_row "01-01-2023" (.obj []) (.obj []) (.obj [])
      = .ok (gjNullRow "01-01-2023") :=
  ⟨rfl, rfl⟩

/-- Claim C3 (code bug): the claim says a store whose aisle list is
absent or null yields zero records without an error.  In get_json.py an
absent aisle list (with or without a search_result key) makes the
comprehension iterate over None and raise TypeError (first two
conjuncts); in get_prices.py a null aisle list does the same (third
conjunct).  Only the absent case in get_prices.py behaves as claimed:
the store contributes zero records and later stores are still processed
(fourth conjunct). -/
theorem C3_missing_aisles_crashes :
    GJ.create_data "01-01-2023" (.arr [.obj [("search_result", .obj [])]])
      = .error .typeError ∧
    GJ.create_data "01-01-2023" (.arr [.obj []]) = .error .typeError ∧
    GP.create_dataframe "2023-01-01"
      (.arr [.obj [("search_result", .obj [("aisles", .null)])]])
      = .error .typeError ∧
    GP.create_dataframe "2023-01-01" (.arr [gpStoreNoAisles, gpStoreOneProduct])
      = .ok [gpPlaceholderRow "2023-01-01"] :=
  ⟨rfl, rfl, rfl, rfl⟩

/-- Counterexample to claim C4 as stated: on the root dict mapping key a
to the string x, following the keys a then b does not return a
placeholder — the second step calls `.get` on a string and raises
AttributeError. -/
theorem C4_counterexample :
    GJ.get_nested (.obj [("a", .str "x")]) ["a", "b"]
      = .error .attributeError := rfl

/-- Claim C4 as amended: for every root value and key sequence such that
each value reached while keys remain is a dict or null, get_nested
returns, without raising, the spec-side safe navigation result — null as
soon as a step is absent or null, and otherwise the value reached by the
whole chain; and whenever some reached value is neither a dict nor null
with keys remaining, get_nested raises AttributeError. -/
theorem C4_safe_navigation (data : Json) (keys : List String) :
    (SpecModel.dictChain data keys = true →
      GJ.get_nested data keys = .ok (SpecModel.navigate data keys)) ∧
    (SpecModel.dictChain data keys = false →
      GJ.get_nested data keys = .error .attributeError) := by
  induction keys generalizing data with
  | nil =>
    constructor
    · intro _
      rfl
    · intro h
      simp [SpecModel.dictChain] at h
  | cons k rest ih =>
    cases data with
    | obj f =>
      constructor
      · intro h
        simp only [SpecModel.dictChain] at h
        simp only [GJ.get_nested, dget, ebind_ok, SpecModel.navigate]
        exact (ih ((jlookup f k).getD .null)).1 h
      · intro h
        simp only [SpecModel.dictChain] at h
        simp only [GJ.get_nested, dget, ebind_ok]
        exact (ih ((jlookup f k).getD .null)).2 h
    | null =>
      constructor
      · intro _
        rfl
      · intro h
        simp [SpecModel.dictChain] at h
    | bool b =>
      exact ⟨fun h => by simp [SpecModel.dictChain] at h, fun _ => rfl⟩
    | num q =>
      exact ⟨fun h => by simp [SpecModel.dictChain] at h, fun _ => rfl⟩
    | str s =>
      exact ⟨fun h => by simp [SpecModel.dictChain] at h, fun _ => rfl⟩
    | arr l =>
      exact ⟨fun h => by simp [SpecModel.dictChain] at h, fun _ => rfl⟩

/-- Witness for C4: a two-step chain through dicts reaches the stored
value, and a chain hitting a number with a key remaining raises. -/
theorem C4_safe_navigation_witness :
    GJ.get_nested (.obj [("a", .obj [("b", .str "v")])]) ["a", "b"]
      = .ok (.str "v") ∧
    GJ.get_nested (.obj [("a", .num 1)]) ["a", "b"]
      = .error .attributeError :=
  ⟨(C4_safe_navigation (.obj [("a", .obj [("b", .str "v")])]) ["a", "b"]).1 (by rfl),
   (C4_safe_navigation (.obj [("a", .num 1)]) ["a", "b"]).2 (by rfl)⟩

/-- Claim C5: on the fixed one-store one-aisle one-product response, the
get_json.py flatten stage produces exactly one record, with product name
Milk 1L, price 5.5, store name S1, store city X and search term milk,
whatever the flatten-time date is. -/
theorem C5_end_to_end (today : String) :
    GJ.flatten_of_response today milkResponse = .ok [milkRow today] := rfl

/-- Claim C6: export_data rejects every format outside csv, parquet and
json with its ValueError (the ConfigError of the design) before any
filesystem effect — the effect trace is empty, so no directory and no
file is created — and for the three supported formats that error branch
is never taken: the run succeeds, creating the directory and writing the
one output file. -/
theorem C6_export_format (dir_path base_name format timestamp : String) :
    (format ∉ supported_formats →
      export_data dir_path base_name format timestamp
        = ([], .error (.unsupportedFormat format))) ∧
    (format ∈ supported_formats →
      export_data dir_path base_name format timestamp
        = ([.makedirs dir_path,
            .write (dir_path ++ "/" ++ base_name ++ "_" ++ timestamp
              ++ "." ++ format)],
           .ok ())) := by
  constructor <;> intro h <;> simp [export_data, h]

/-- Witness for C6 at the formats xml and csv. -/
theorem C6_export_format_witness :
    export_data "./data" "product_data" "xml" "20230101-000000"
      = ([], .error (.unsupportedFormat "xml")) ∧
    export_data "./data" "product_data" "csv" "20230101-000000"
      = ([.makedirs "./data",
          .write ("./data" ++ "/" ++ "product_data" ++ "_" ++ "20230101-000000"
            ++ "." ++ "csv")],
         .ok ()) :=
  ⟨(C6_export_format "./data" "product_data" "xml" "20230101-000000").1 (by decide),
   (C6_export_format "./data" "product_data" "csv" "20230101-000000").2 (by decide)⟩

/-- Counterexample to claim C7 as stated: in the get_json.py pipeline a
response whose results key holds a number (present but not a list) makes
the flatten stage raise TypeError instead of yielding zero records. -/
theorem C7_counterexample :
    GJ.flatten_of_response "01-01-2023" (.obj [("results", .num 5)])
      = .error .typeError := rfl

/-- Claim C7 as amended: in the get_prices.py pipeline, a raw response
dict whose results key is absent or holds a non-list yields zero records
and raises nothing, thanks to the isinstance guard; the get_json.py
pipeline guarantees this only for an absent results key (its default to
the empty list), having no guard for the non-list case. -/
theorem C7_flatten_guard (today : String) (fields : List (String × Json)) :
    (isArr ((jlookup fields "results").getD .null) = false →
      GP.flatten_of_response today (.obj fields) = .ok []) ∧
    (jlookup fields "results" = none →
      GJ.flatten_of_response today (.obj fields) = .ok []) := by
  constructor
  · intro h
    cases fields with
    | nil => rfl
    | cons kv rest =>
      cases hr : jlookup (kv :: rest) "results" with
      | none =>
        simp [GP.flatten_of_response, truthy, dget, hr, isArr,
          GP.create_dataframe, pyIter, GP.rows_of_stores]
      | some v =>
        rw [hr] at h
        simp only [Option.getD_some] at h
        simp [GP.flatten_of_response, truthy, dget, hr, h]
  · intro h
    simp [GJ.flatten_of_response, dget, h, GJ.create_data, pyIter,
      GJ.rows_of_stores]

/-- Witness for C7 on a truthy response dict with no results key. -/
theorem C7_flatten_guard_witness :
    GP.flatten_of_response "2023-01-01" (.obj [("x", .null)]) = .ok [] ∧
    GJ.flatten_of_response "01-01-2023" (.obj [("x", .null)]) = .ok [] :=
  ⟨(C7_flatten_guard "2023-01-01" [("x", .null)]).1 (by rfl),
   (C7_flatten_guard "01-01-2023" [("x", .null)]).2 (by rfl)⟩

/-- Claim C8: on a transport error or a non-success HTTP status, the
get_json.py fetcher raises its APIError and the get_prices.py fetcher
returns None; in both pipelines the caller then stops before flattening
and export, performing no filesystem effect, so no output file is
produced. -/
theorem C8_fetch_failure_aborts (o : FetchOutcome)
    (today dir_path base_name format timestamp term code country base_dir : String)
    (h : o = .requestException
      ∨ ∃ s b, o = .response s b ∧ errorStatus s = true) :
    GJ.get_product_data o = .error ⟨GJ.transport_error_message⟩ ∧
    GP.get_product_data o = none ∧
    GP.fetch_and_export_product_data today dir_path base_name format timestamp o
      = ([], .ok ()) ∧
    GJ.get_and_create today term code country base_dir timestamp o
      = ([], .error (.api ⟨GJ.transport_error_message⟩)) := by
  rcases h with h | ⟨s, b, rfl, hs⟩
  · subst h
    exact ⟨rfl, rfl, rfl, rfl⟩
  · refine ⟨?_, ?_, ?_, ?_⟩ <;>
      simp [GJ.get_product_data, GP.get_product_data,
        GP.fetch_and_export_product_data, GJ.get_and_create, hs]

/-- Witness for C8 at a 500 status response. -/
theorem C8_fetch_failure_aborts_witness :
    GJ.get_product_data (.response 500 none)
      = .error ⟨GJ.transport_error_message⟩ ∧
    GP.get_product_data (.response 500 none) = none ∧
    GP.fetch_and_export_product_data "2023-01-01" "./data" "product_data"
        "csv" "ts" (.response 500 none) = ([], .ok ()) ∧
    GJ.get_and_create "01-01-2023" "milk" "88010560" "BR" "." "ts"
        (.response 500 none)
      = ([], .error (.api ⟨GJ.transport_error_message⟩)) :=
  C8_fetch_failure_aborts (.response 500 none) "2023-01-01" "./data"
    "product_data" "csv" "ts" "milk" "88010560" "BR" "."
    (Or.inr ⟨500, none, rfl, by decide⟩)

/-- Counterexample to claim C9 as stated: in get_prices.py a fetch whose
request succeeds (status 200) but whose body fails to parse yields the
return value None — no FetchError is raised, and the result is identical
to the one produced by a transport error, so no invalid-response variant
distinguishable from the transport variant exists there. -/
theorem C9_counterexample :
    GP.get_product_data (.response 200 none) = none ∧
    GP.get_product_data .requestException = none :=
  ⟨rfl, rfl⟩

/-- Claim C9 as amended: in get_json.py, a fetch whose request succeeds
but whose body fails to parse as JSON raises the APIError with the
invalid-response message, which differs from the transport-error
message; get_prices.py instead returns the same None for both failure
kinds. -/
theorem C9_invalid_json_distinct (s : Nat) (h : errorStatus s = false) :
    GJ.get_product_data (.response s none)
      = .error ⟨GJ.invalid_json_message⟩ ∧
    GJ.invalid_json_message ≠ GJ.transport_error_message := by
  constructor
  · simp [GJ.get_product_data, h]
  · decide

/-- Witness for C9 at a 200 status response with an unparsable body. -/
theorem C9_invalid_json_distinct_witness :
    GJ.get_product_data (.response 200 none)
      = .error ⟨GJ.invalid_json_message⟩ ∧
    GJ.invalid_json_message ≠ GJ.transport_error_message :=
  C9_invalid_json_distinct 200 (by decide)

end Cornershop
